import Mathlib

/-!
Verification development for the `@pleasure-js/daemonizer` ("forker") repository.

The definitions below are a shallow embedding of the repository's JavaScript
code.  The process-supervision state machine is translated from
`src/lib/running-process.js` (shipped here as `src/unnamed/part_003`); the
supervisor, dispatcher and daemon-singleton logic from the second (current)
`DaemonizerServer` class in `src/src/lib/daemonizer-server.js`, which is the
one bundled into `src/dist/@pleasure-js/daemonizer.esm.js`.  Where the
unbundled sources and the bundle disagree (the request field is named
`command` in the stale `src/src/lib/request.js` but `method` in the bundle,
in `_exec`, and in every test and client), the bundled code is followed and
the divergence is noted at the definition.

External collaborators (the OS process table, `child_process.spawn`,
`tree-kill`, `pidusage`, the marker file on disk, the uuid generator) are
modelled as explicit parameters: spawned pids, sampled metrics, file
contents and fresh uuids are inputs to the embedded functions, and the side
effects the code requests from them are recorded in explicit action lists.
Timestamp bookkeeping (`_started`, `_lastRestart`, the entries of the
`_restarts` array) is not claim-relevant and is abstracted to the length of
the `_restarts` array (`restarts`).
-/

namespace Forker

/-- `SpawnArgs` (`src/unnamed/part_003` typedef): the command and its
argument list handed to `child_process.spawn`.  The opaque per-spawn
`options` map is not claim-relevant and is omitted. -/
structure SpawnArgs where
  command : String
  args : List String
deriving DecidableEq

/-- `RunningProcessOptions` (`src/unnamed/part_003` lines 17-20).
`defaultOptions` sets `autoRestart = true` and `waitBeforeRestart = 1000`;
`maximumAutoRestart` has no default (it is `undefined` unless supplied),
which the embedding renders as `Option Int` with default `none`. -/
structure ProcessOptions where
  autoRestart : Bool := true
  waitBeforeRestart : Nat := 1000
  maximumAutoRestart : Option Int := none
deriving DecidableEq

/-- Side effects a `RunningProcess` transition requests from its external
collaborators: an OS spawn of a command, a `tree-kill` of a pid, and the
`exit` / `done` events emitted on the record itself. -/
inductive RPAction where
  | spawn (command : String)
  | killTree (pid : Nat)
  | emitExit
  | emitDone
deriving DecidableEq

/-- The mutable state of one `RunningProcess`
(`src/unnamed/part_003` lines 50-62): `_id`, `_spawnArgs`, `_options`,
`_restarts` (abstracted to its length), `_stop`, and `_spawnChild`
(rendered as the `Option`al pid of the live OS child, `none` = `null`). -/
structure RPState where
  id : String
  spawnArgs : SpawnArgs
  opts : ProcessOptions
  restarts : Nat
  stopped : Bool
  child : Option Nat
deriving DecidableEq

/-- JavaScript truthiness of the optional string ids the code guards with
`if (id)` / `id || uuid()`: `undefined` and the empty string are falsy. -/
def idTruthy : Option String → Bool
  | none => false
  | some s => s != ""

/-- `id || uuid()` — the provided id when truthy, otherwise a fresh uuid
(the generator is an external collaborator, so the fresh value is an
input). -/
def idOrFresh (id : Option String) (freshId : String) : String :=
  match id with
  | none => freshId
  | some s => if s = "" then freshId else s

/-- `RunningProcess.start` (`src/unnamed/part_003` lines 91-164): a no-op
once `_stop` is set or while `_spawnChild` is live, otherwise spawns the
command (the OS-assigned pid `newPid` is an input) and records the child.
The stdout/stderr chunk accumulation is socket-facing and not
claim-relevant here. -/
def rpStart (newPid : Nat) (s : RPState) : RPState × List RPAction :=
  if s.stopped then (s, [])
  else if s.child.isSome then (s, [])
  else ({ s with child := some newPid }, [RPAction.spawn s.spawnArgs.command])

/-- The restart-budget guard of `RunningProcess.restart`
(`src/unnamed/part_003` line 170):
`this._options.maximumAutoRestart >= 0 && this._restarts.length + 1 > this._options.maximumAutoRestart`.
When `maximumAutoRestart` is `undefined` the JavaScript comparison
`undefined >= 0` is false, hence the `none` branch. -/
def budgetExhausted (s : RPState) : Bool :=
  match s.opts.maximumAutoRestart with
  | some n => if 0 ≤ n ∧ (s.restarts : Int) + 1 > n then true else false
  | none => false

/-- `RunningProcess.stop` (`src/unnamed/part_003` lines 182-193): resolves
immediately once `_stop` is already set; otherwise sets `_stop`, requests
`tree-kill` of the pid when a live handle exists, clears `_spawnChild`,
emits `exit` and removes all listeners. -/
def rpStop (s : RPState) : RPState × List RPAction :=
  if s.stopped then (s, [])
  else
    let killActs : List RPAction :=
      match s.child with
      | some p => [RPAction.killTree p]
      | none => []
    ({ s with stopped := true, child := none }, killActs ++ [RPAction.emitExit])

/-- `RunningProcess.restart` (`src/unnamed/part_003` lines 169-177): stop
when the budget is exhausted, otherwise push a restart timestamp
(`restarts + 1`) and start again. -/
def rpRestart (newPid : Nat) (s : RPState) : RPState × List RPAction :=
  if budgetExhausted s then rpStop s
  else rpStart newPid { s with restarts := s.restarts + 1 }

/-- The `exit` handler installed by `start`
(`src/unnamed/part_003` lines 143-161): on OS child termination the handle
is cleared; if not stopped and `autoRestart` holds, `restart` runs after
the `waitBeforeRestart` timer (the timer is a non-blocking delay and the
two steps are serialized, so they are composed here); otherwise the
accumulated output is surfaced via `done` and `stop` runs. -/
def childExit (newPid : Nat) (s : RPState) : RPState × List RPAction :=
  let s1 := { s with child := none }
  if !s1.stopped && s1.opts.autoRestart then
    rpRestart newPid s1
  else
    let r := rpStop s1
    (r.fst, RPAction.emitDone :: r.snd)

/-- The `RunningProcess` constructor (`src/unnamed/part_003` lines 50-62):
`_id = id || uuid()`, fresh counters, `_stop = false`, then `this.start()`. -/
def mkRunningProcess (id : Option String) (freshId : String) (newPid : Nat)
    (sa : SpawnArgs) (opts : ProcessOptions) : RPState × List RPAction :=
  rpStart newPid
    { id := idOrFresh id freshId, spawnArgs := sa, opts := opts
      restarts := 0, stopped := false, child := none }

/-- Options of a process with `autoRestart = true` and a finite restart
budget `maximumAutoRestart = N`, as in claim C4. -/
def restartOpts (N w : Nat) : ProcessOptions :=
  { autoRestart := true, waitBeforeRestart := w, maximumAutoRestart := some (N : Int) }

/-- The record state right after construction (fresh id, first spawn done). -/
def forkedFresh (freshId : String) (pid0 : Nat) (sa : SpawnArgs)
    (opts : ProcessOptions) : RPState :=
  (mkRunningProcess none freshId pid0 sa opts).fst

/-- Iterated unexpected OS exits of one record: `exitsIter pids s k` is the
state after `k` child terminations, the `j`-th respawn receiving pid
`pids j` from the OS. -/
def exitsIter (pids : Nat → Nat) (s : RPState) : Nat → RPState
  | 0 => s
  | k + 1 => (childExit (pids k) (exitsIter pids s k)).fst

/-! ### Request schema and generic dispatcher

`RequestSchema` and `DaemonizerServer._exec`.  The schema is embedded from
the bundled `src/dist/@pleasure-js/daemonizer.esm.js` lines 782-798, whose
request field is `method` — the name `_exec`
(`src/src/lib/daemonizer-server.js` lines 404-412), the client proxy and
the tests all use; the stale unbundled `src/src/lib/request.js` names the
same required field `command`.  The shape-validation library is an external
collaborator: its uuid-pattern check on explicitly supplied ids is
abstracted away (supplied ids are taken as already well-formed), and the
generated default id is an input. -/

/-- A raw inbound request envelope before validation: `id`, `method` and
`payload` may each be absent.  Payload entries are opaque to the
dispatcher (it only forwards them), so they are represented by an opaque
argument type `String`. -/
structure RawRequest where
  id : Option String := none
  method : Option String := none
  payload : Option (List String) := none
deriving DecidableEq

/-- A request after `RequestSchema.parse`: `id` defaulted to a generated
uuid, `method` present, `payload` defaulted to `[]`. -/
structure ParsedRequest where
  id : String
  method : String
  payload : List String
deriving DecidableEq

/-- `RequestSchema.parse` (bundle lines 782-798): `method` is required with
message `Please enter the method to execute`; `id` defaults to a fresh
uuid; `payload` defaults to the empty array. -/
def parseRequest (freshId : String) (r : RawRequest) : Except String ParsedRequest :=
  match r.method with
  | none => Except.error "Please enter the method to execute"
  | some m => Except.ok { id := r.id.getD freshId, method := m, payload := r.payload.getD [] }

/-- Truthiness of `this[m]` on a `DaemonizerServer` instance: its own class
methods (including the underscore-private ones), the `EventEmitter`
methods it inherits, and the data properties assigned in the constructor.
`DaemonizerServer._exec` consults this via `!this[request.method]`. -/
def serverHasMethod (m : String) : Bool :=
  ([ "_startDaemonComm", "_exec", "_stopDaemonComm", "_exit",
     "findProcessById", "findProcessByPid", "list", "fork", "stop", "status",
     "on", "once", "off", "emit", "addListener", "removeListener",
     "removeAllListeners", "listeners", "listenerCount", "eventNames",
     "rawListeners", "prependListener", "prependOnceListener",
     "setMaxListeners", "getMaxListeners",
     "_runningProcesses", "config", "server", "_io" ] : List String).contains m

/-- The regex test `/^_/.test(request.method)` of `_exec`: the method name
matches the private-method convention exactly when its first character is
an underscore. -/
def methodIsPrivate (m : String) : Bool :=
  match m.data with
  | [] => false
  | c :: _ => c == '_'

/-- Outcome of `_exec`: either a thrown error message, or a validated
request together with the deferred invocation of the named server method
(the `then` closure); only the `dispatch` outcome ever invokes anything. -/
inductive ExecOutcome where
  | failure (msg : String)
  | dispatch (req : ParsedRequest)
deriving DecidableEq

/-- `DaemonizerServer._exec` (`src/src/lib/daemonizer-server.js` lines
404-412): parse the request, then throw `Unknown command` when the method
name matches `/^_/` or is not a (truthy) property of the server; otherwise
return the request and the deferred call. -/
def execServer (freshId : String) (r : RawRequest) : ExecOutcome :=
  match parseRequest freshId r with
  | Except.error e => ExecOutcome.failure e
  | Except.ok req =>
    if methodIsPrivate req.method || !(serverHasMethod req.method) then
      ExecOutcome.failure "Unknown command"
    else ExecOutcome.dispatch req

/-! ### Progress-subscription wiring of the `exec` handler

The `request-start` listener installed by the constructor
(`src/src/lib/daemonizer-server.js` lines 288-299) and the `exec` socket
handler (lines 378-394), modelled as operations on the server emitter's
subscription list. -/

/-- The handlers the fork wiring installs on the server emitter: the
`progress` forwarder for one process id, and the `once` teardown listener
that is meant to remove it. -/
inductive Handler where
  | progress (processId : String)
  | teardown (processId : String)
deriving DecidableEq

/-- One live subscription on the server emitter. -/
structure Sub where
  event : String
  handler : Handler
  once : Bool
deriving DecidableEq

/-- `this.off('progress-' + processId, progress)` — the effect of the
teardown handler. -/
def fireTeardown (processId : String) (subs : List Sub) : List Sub :=
  subs.filter fun sb =>
    !(sb.event == "progress-" ++ processId && sb.handler == Handler.progress processId)

/-- Node `EventEmitter.emit` semantics restricted to this wiring: handlers
subscribed to the event fire; `once` subscriptions for the event are
removed; a fired teardown handler removes the matching progress
subscription. -/
def emitEvent (ev : String) (subs : List Sub) : List Sub :=
  let fired := subs.filter fun sb => sb.event == ev
  let remaining := subs.filter fun sb => !(sb.event == ev && sb.once)
  fired.foldl
    (fun acc sb =>
      match sb.handler with
      | Handler.teardown pid => fireTeardown pid acc
      | Handler.progress _ => acc)
    remaining

/-- The `request-start` listener (constructor, lines 288-299): for a `fork`
request it defaults the payload's process id (`request.payload[0].id =
request.payload[0].id || uuid()`), subscribes the progress forwarder to
`progress-<processId>`, and registers a `once` teardown on
`request-end-<processId>`. -/
def onRequestStart (requestMethod : String) (payloadId : Option String)
    (freshProc : String) (subs : List Sub) : List Sub :=
  if requestMethod == "fork" then
    let processId := idOrFresh payloadId freshProc
    subs ++
      [ { event := "progress-" ++ processId, handler := Handler.progress processId,
          once := false },
        { event := "request-end-" ++ processId, handler := Handler.teardown processId,
          once := true } ]
  else subs

/-- The subscription-relevant trace of one `exec` request dispatch (socket
handler, lines 378-394): emit `request-start` (running the fork wiring),
settle the request, then emit `request-end` and `request-end-<request.id>`.
`requestId` is the envelope's own id, `payloadId` the process id inside the
fork payload. -/
def dispatchForkExec (requestId : String) (payloadId : Option String)
    (freshProc : String) (subs : List Sub) : List Sub :=
  let subs1 := onRequestStart "fork" payloadId freshProc subs
  let subs2 := emitEvent "request-end" subs1
  emitEvent ("request-end-" ++ requestId) subs2

/-! ### Process supervisor (`DaemonizerServer` registry methods) -/

/-- `DaemonizerServer.findProcessById` (`src/src/lib/daemonizer-server.js`
lines 431-441): with a falsy id the `forEach` scan is skipped and nothing
is found; otherwise `foundProcess` is overwritten by every match, so the
last matching record wins. -/
def findProcessById (id : Option String) (reg : List RPState) : Option RPState :=
  if idTruthy id then
    reg.foldl (fun acc p => if p.id = id.getD "" then some p else acc) none
  else none

/-- `DaemonizerServer.fork` (`src/src/lib/daemonizer-server.js` lines
490-526): return the existing record when `findProcessById` hits;
otherwise construct a `RunningProcess` (which spawns immediately), wire its
forwarding listeners, and append it to `_runningProcesses`.  Result: the
returned record, the new registry, and the requested OS actions. -/
def serverFork (id : Option String) (sa : SpawnArgs) (opts : ProcessOptions)
    (freshId : String) (newPid : Nat) (reg : List RPState) :
    RPState × List RPState × List RPAction :=
  match findProcessById id reg with
  | some foundProcess => (foundProcess, reg, [])
  | none =>
    let r := mkRunningProcess id freshId newPid sa opts
    (r.fst, reg ++ [r.fst], r.snd)

/-- `DaemonizerServer.stop` (`src/src/lib/daemonizer-server.js` lines
532-539): throw `Process <id> not found.` when the id is absent from the
registry, otherwise delegate to the found record's `stop()`. -/
def serverStop (id : String) (reg : List RPState) :
    Except String (RPState × List RPAction) :=
  match findProcessById (some id) reg with
  | none => Except.error ("Process " ++ id ++ " not found.")
  | some runningProcess => Except.ok (rpStop runningProcess)

/-- Metrics sampled from the `pidusage` collaborator, with the
destructuring defaults `{ cpu = 0, memory = 0, elapsed = 0 }` applied. -/
structure Metrics where
  cpu : ℚ := 0
  memory : ℚ := 0
  elapsed : ℚ := 0
deriving DecidableEq

/-- One row of the table `status` returns: the record's `toJSON()` fields
(timestamps abstracted away; the `pid` placeholder strings for a dead
handle are rendered as `none`) merged with the sampled metrics.  The
`toFixed(1)` / `filesize` display formatting of `cpu` and `memory` is
dropped: the row carries the numeric values; `elapsed` is divided by 1000
as in the source. -/
structure StatusRow where
  id : String
  pid : Option Nat
  restarts : Nat
  stopRequested : Bool
  cpu : ℚ
  memory : ℚ
  elapsed : ℚ
deriving DecidableEq

/-- `DaemonizerServer.status` (`src/src/lib/daemonizer-server.js` lines
586-611): walk the registry, skip records not matching a truthy id filter,
sample `pidusage` only when a live handle exists (zeroes otherwise), and
push the enriched row. -/
def serverStatus (sample : Nat → Metrics) (idFilter : Option String)
    (reg : List RPState) : List StatusRow :=
  reg.filterMap fun runningProcess =>
    if idTruthy idFilter && runningProcess.id != idFilter.getD "" then none
    else
      let m : Metrics :=
        match runningProcess.child with
        | some pid => sample pid
        | none => { cpu := 0, memory := 0, elapsed := 0 }
      some { id := runningProcess.id, pid := runningProcess.child,
             restarts := runningProcess.restarts, stopRequested := runningProcess.stopped,
             cpu := m.cpu, memory := m.memory, elapsed := m.elapsed / 1000 }

/-! ### Daemon singleton (`DaemonizerServer.isRunning` / `.start`) -/

/-- The full daemon configuration after merging over `defaultConfig`
(`src/lib/default-config.js`, bundle lines 752-757). -/
structure DaemonizerConfig where
  runningThread : String
  port : Nat
  ip : String
  autoClose : Bool
deriving DecidableEq

/-- `defaultConfig`: marker file `../.running` next to the module, port
1111, localhost, `autoClose` false.  The `DAEMONIZER_DAEMON_CONFIG`
environment overlay applies before any caller-supplied config and is not
claim-relevant. -/
def defaultConfig : DaemonizerConfig :=
  { runningThread := "../.running", port := 1111, ip := "127.0.0.1", autoClose := false }

/-- A caller-supplied partial configuration (absent fields fall back to
`defaultConfig` under `Object.assign`). -/
structure PartialConfig where
  runningThread : Option String := none
  port : Option Nat := none
  ip : Option String := none
  autoClose : Option Bool := none
deriving DecidableEq

/-- `Object.assign({}, defaultConfig, config)`. -/
def mergeConfig (pc : PartialConfig) : DaemonizerConfig :=
  { runningThread := pc.runningThread.getD defaultConfig.runningThread,
    port := pc.port.getD defaultConfig.port,
    ip := pc.ip.getD defaultConfig.ip,
    autoClose := pc.autoClose.getD defaultConfig.autoClose }

/-- The persisted daemon marker: the merged config written at boot plus the
daemon's `pid`; only the pid is read back by `isRunning`. -/
structure Marker where
  pid : Nat
deriving DecidableEq

/-- `DaemonizerServer.isRunning` (`src/src/lib/daemonizer-server.js` lines
546-555): merge the config, read the marker file at
`config.runningThread` (`fileRead path = none` models a missing file; a
present file is assumed to parse, as written by the daemon), probe OS
liveness of the recorded pid (`is-running`, an external collaborator,
modelled by `live`), and return the pid only when alive — falling through
to `undefined` (`none`) otherwise. -/
def serverIsRunning (fileRead : String → Option Marker) (live : Nat → Bool)
    (pc : PartialConfig) : Option Nat :=
  match fileRead (mergeConfig pc).runningThread with
  | some marker => if live marker.pid then some marker.pid else none
  | none => none

/-- The spawn request `DaemonizerServer.start` issues for the new daemon:
detached, stdio ignored, environment = caller env plus
`DAEMONIZER_DAEMON_START` and the JSON-serialized merged configuration in
`DAEMONIZER_DAEMON_CONFIG`. -/
structure DaemonSpawn where
  detached : Bool
  stdioIgnore : Bool
  envStartFlag : Bool
  envConfig : DaemonizerConfig
  userEnv : List (String × String)
deriving DecidableEq

/-- `DaemonizerServer.start` (`src/src/lib/daemonizer-server.js` lines
565-584): merge the config, re-check `isRunning`, and throw
`Another process is already running (pid = <pid>)` when a live daemon is
found; otherwise spawn the detached daemon (the OS-assigned `childPid` is
an input), `unref` it, and return `child.pid` immediately — nothing waits
for the new daemon's own startup. -/
def serverStart (fileRead : String → Option Marker) (live : Nat → Bool)
    (pc : PartialConfig) (userEnv : List (String × String)) (childPid : Nat) :
    Except String (Nat × DaemonSpawn) :=
  let config := mergeConfig pc
  match serverIsRunning fileRead live pc with
  | some runningPid =>
    Except.error ("Another process is already running (pid = " ++ toString runningPid ++ ")")
  | none =>
    Except.ok (childPid,
      { detached := true, stdioIgnore := true, envStartFlag := true,
        envConfig := config, userEnv := userEnv })

/-- A concrete registry record used by witnesses: the `loop` process of the
repository's own test suite. -/
def loopRecord : RPState :=
  { id := "loop", spawnArgs := { command := "loop.sh", args := [] },
    opts := {}, restarts := 0, stopped := false, child := some 5 }

/-! ## Theorems -/

/-- The `forEach` scan of `findProcessById` leaves its accumulator alone
when no record matches the id. -/
theorem foldl_lastMatch_eq_acc (s : String) (reg : List RPState) (acc : Option RPState)
    (h : ∀ p ∈ reg, p.id ≠ s) :
    reg.foldl (fun acc p => if p.id = s then some p else acc) acc = acc := by
  induction reg generalizing acc with
  | nil => rfl
  | cons a tl ih =>
    rw [List.foldl_cons, if_neg (h a (List.mem_cons_self a tl))]
    exact ih acc fun p hp => h p (List.mem_cons_of_mem a hp)

/-- The `forEach` scan of `findProcessById` ends on a registry member with
the sought id whenever one exists (the last match, as each match overwrites
`foundProcess`). -/
theorem foldl_lastMatch_found (s : String) (reg : List RPState) (acc : Option RPState)
    (h : ∃ p ∈ reg, p.id = s) :
    ∃ q, q ∈ reg ∧ q.id = s ∧
      reg.foldl (fun acc p => if p.id = s then some p else acc) acc = some q := by
  induction reg generalizing acc with
  | nil =>
    rcases h with ⟨p, hp, _⟩
    exact absurd hp (List.not_mem_nil p)
  | cons a tl ih =>
    by_cases htl : ∃ p ∈ tl, p.id = s
    · obtain ⟨q, hq, hqs, heq⟩ := ih (if a.id = s then some a else acc) htl
      exact ⟨q, List.mem_cons_of_mem a hq, hqs, by rw [List.foldl_cons]; exact heq⟩
    · have ha : a.id = s := by
        rcases h with ⟨p, hp, hps⟩
        rcases List.mem_cons.mp hp with rfl | hptl
        · exact hps
        · exact absurd ⟨p, hptl, hps⟩ htl
      refine ⟨a, List.mem_cons_self a tl, ha, ?_⟩
      rw [List.foldl_cons, if_pos ha]
      exact foldl_lastMatch_eq_acc s tl (some a) fun p hp hps => htl ⟨p, hp, hps⟩

/-- `findProcessById` with a truthy id present in the registry returns a
registry member carrying that id. -/
theorem findProcessById_found (s : String) (reg : List RPState) (hs : s ≠ "")
    (h : ∃ p ∈ reg, p.id = s) :
    ∃ q, q ∈ reg ∧ q.id = s ∧ findProcessById (some s) reg = some q := by
  obtain ⟨q, hq, hqs, heq⟩ := foldl_lastMatch_found s reg none h
  refine ⟨q, hq, hqs, ?_⟩
  have ht : idTruthy (some s) = true := by simp [idTruthy, hs]
  unfold findProcessById
  rw [if_pos ht]
  exact heq

/-- C3: `fork` is idempotent per id — whenever a non-empty id is already
present in the registry, forking again with that id (with any command and
any options) returns an existing record with that id, leaves the registry
unchanged, and requests no OS actions (no second process is spawned). -/
theorem fork_idempotent_per_id (reg : List RPState) (s : String) (sa : SpawnArgs)
    (opts : ProcessOptions) (freshId : String) (newPid : Nat)
    (hs : s ≠ "") (hp : ∃ p ∈ reg, p.id = s) :
    ∃ q, q ∈ reg ∧ q.id = s ∧
      serverFork (some s) sa opts freshId newPid reg = (q, reg, []) := by
  obtain ⟨q, hq, hqs, hfind⟩ := findProcessById_found s reg hs hp
  refine ⟨q, hq, hqs, ?_⟩
  unfold serverFork
  simp only [hfind]

/-- Witness for C3: re-forking the registered id `loop` with a different
command returns the original record, keeps the one-record registry, and
spawns nothing. -/
theorem fork_idempotent_per_id_witness :
    ∃ q, q ∈ [loopRecord] ∧ q.id = "loop" ∧
      serverFork (some "loop") { command := "other", args := ["-x"] } {} "fresh" 9
        [loopRecord] = (q, [loopRecord], []) :=
  fork_idempotent_per_id [loopRecord] "loop" { command := "other", args := ["-x"] }
    {} "fresh" 9 (by decide) ⟨loopRecord, List.mem_singleton.mpr rfl, rfl⟩

/-- C10: `fork` with a falsy id (absent or empty) never matches an existing
record — `findProcessById` returns nothing — so it always constructs and
registers a fresh `RunningProcess`, spawning its command, and the new
record's id is the internally generated uuid. -/
theorem fork_falsy_id_fresh_record (reg : List RPState) (id : Option String)
    (sa : SpawnArgs) (opts : ProcessOptions) (freshId : String) (newPid : Nat)
    (h : idTruthy id = false) :
    findProcessById id reg = none ∧
    ∃ r : RPState,
      serverFork id sa opts freshId newPid reg = (r, reg ++ [r], [RPAction.spawn sa.command]) ∧
      r.id = freshId ∧ r.stopped = false ∧ r.child = some newPid := by
  have hfind : findProcessById id reg = none := by
    unfold findProcessById
    rw [if_neg (by rw [h]; exact Bool.false_ne_true)]
  have hio : idOrFresh id freshId = freshId := by
    cases id with
    | none => rfl
    | some s =>
      have hs : s = "" := by simpa [idTruthy] using h
      simp [idOrFresh, hs]
  refine ⟨hfind, ⟨freshId, sa, opts, 0, false, some newPid⟩, ?_, rfl, rfl, rfl⟩
  unfold serverFork
  simp only [hfind]
  unfold mkRunningProcess rpStart
  simp [hio]

/-- Witness for C10: forking with no id on a nonempty registry constructs,
registers and spawns a fresh record whose id is the generated uuid. -/
theorem fork_falsy_id_fresh_record_witness :
    findProcessById none [loopRecord] = none ∧
    ∃ r : RPState,
      serverFork none { command := "ls", args := ["-la"] } {} "11111111-2222-4333-8444-999999999999" 77
        [loopRecord] =
        (r, [loopRecord] ++ [r], [RPAction.spawn "ls"]) ∧
      r.id = "11111111-2222-4333-8444-999999999999" ∧ r.stopped = false ∧ r.child = some 77 :=
  fork_falsy_id_fresh_record [loopRecord] none { command := "ls", args := ["-la"] }
    {} "11111111-2222-4333-8444-999999999999" 77 rfl

/-- One unexpected exit of a running record whose `autoRestart` is on and
whose budget is not yet exhausted: the record respawns, with one more
recorded restart. -/
theorem childExit_step_run (n : Int) (w : Nat) (idv : String) (sa : SpawnArgs)
    (k : Nat) (c : Option Nat) (newPid : Nat) (h : ¬(0 ≤ n ∧ (k : Int) + 1 > n)) :
    childExit newPid ⟨idv, sa, ⟨true, w, some n⟩, k, false, c⟩ =
      (⟨idv, sa, ⟨true, w, some n⟩, k + 1, false, some newPid⟩,
        [RPAction.spawn sa.command]) := by
  unfold childExit rpRestart budgetExhausted rpStart
  simp [h]

/-- One unexpected exit of a running record whose budget is exhausted: the
record stops instead of respawning; the only requested action is the
`exit` event. -/
theorem childExit_step_exhaust (n : Int) (w : Nat) (idv : String) (sa : SpawnArgs)
    (k : Nat) (c : Option Nat) (newPid : Nat) (h : 0 ≤ n ∧ (k : Int) + 1 > n) :
    childExit newPid ⟨idv, sa, ⟨true, w, some n⟩, k, false, c⟩ =
      (⟨idv, sa, ⟨true, w, some n⟩, k, true, none⟩, [RPAction.emitExit]) := by
  unfold childExit rpRestart budgetExhausted rpStop
  simp [h]

/-- An exit event on an already-stopped record changes nothing. -/
theorem childExit_step_term (idv : String) (sa : SpawnArgs) (o : ProcessOptions)
    (k : Nat) (newPid : Nat) :
    childExit newPid ⟨idv, sa, o, k, true, none⟩ =
      (⟨idv, sa, o, k, true, none⟩, [RPAction.emitDone]) := by
  unfold childExit rpStop
  simp

/-- While the restart budget `N` is not exhausted, the `k`-th unexpected
exit (for `k ≤ N`) leaves the record running with exactly `k` recorded
restarts and a live respawned child. -/
theorem exitsIter_within_budget (N w : Nat) (sa : SpawnArgs) (freshId : String)
    (pid0 : Nat) (pids : Nat → Nat) :
    ∀ k, k ≤ N →
      exitsIter pids (forkedFresh freshId pid0 sa ⟨true, w, some (N : Int)⟩) k =
        ⟨freshId, sa, ⟨true, w, some (N : Int)⟩, k, false,
          some (if k = 0 then pid0 else pids (k - 1))⟩ := by
  intro k
  induction k with
  | zero =>
    intro _
    unfold exitsIter forkedFresh mkRunningProcess rpStart
    simp [idOrFresh]
  | succ k ih =>
    intro hk
    have hk' : k ≤ N := Nat.le_of_succ_le hk
    show (childExit (pids k)
      (exitsIter pids (forkedFresh freshId pid0 sa ⟨true, w, some (N : Int)⟩) k)).fst = _
    rw [ih hk',
      childExit_step_run (N : Int) w freshId sa k
        (some (if k = 0 then pid0 else pids (k - 1))) (pids k) (by omega)]
    simp

/-- The `(N+1)`-th unexpected exit exhausts the budget: the record enters
the terminal stopped state with exactly `N` recorded restarts, and every
later exit event leaves that state unchanged. -/
theorem exitsIter_exhausted (N w : Nat) (sa : SpawnArgs) (freshId : String)
    (pid0 : Nat) (pids : Nat → Nat) :
    ∀ j, exitsIter pids (forkedFresh freshId pid0 sa ⟨true, w, some (N : Int)⟩) (N + 1 + j) =
      ⟨freshId, sa, ⟨true, w, some (N : Int)⟩, N, true, none⟩ := by
  intro j
  induction j with
  | zero =>
    show (childExit (pids N)
      (exitsIter pids (forkedFresh freshId pid0 sa ⟨true, w, some (N : Int)⟩) N)).fst = _
    rw [exitsIter_within_budget N w sa freshId pid0 pids N (Nat.le_refl N),
      childExit_step_exhaust (N : Int) w freshId sa N
        (some (if N = 0 then pid0 else pids (N - 1))) (pids N) (by omega)]
  | succ j ih =>
    show (childExit (pids (N + 1 + j))
      (exitsIter pids (forkedFresh freshId pid0 sa ⟨true, w, some (N : Int)⟩) (N + 1 + j))).fst = _
    rw [ih, childExit_step_term freshId sa ⟨true, w, some (N : Int)⟩ N (pids (N + 1 + j))]

/-- C4: for a process with `autoRestart = true` and
`maximumAutoRestart = N ≥ 0`, the `(N+1)`-th unexpected exit transitions
the record to the terminal stopped state instead of issuing another
restart (the step's only requested action is the `exit` event — no
respawn), and the `restarts` counter never exceeds `N` at any point of the
exit sequence. -/
theorem auto_restart_budget (N w : Nat) (sa : SpawnArgs) (freshId : String)
    (pid0 : Nat) (pids : Nat → Nat) :
    (exitsIter pids (forkedFresh freshId pid0 sa (restartOpts N w)) (N + 1)).stopped = true ∧
    (exitsIter pids (forkedFresh freshId pid0 sa (restartOpts N w)) (N + 1)).restarts = N ∧
    (childExit (pids N) (exitsIter pids (forkedFresh freshId pid0 sa (restartOpts N w)) N)).snd =
      [RPAction.emitExit] ∧
    ∀ k, (exitsIter pids (forkedFresh freshId pid0 sa (restartOpts N w)) k).restarts ≤ N := by
  have hterm : exitsIter pids (forkedFresh freshId pid0 sa ⟨true, w, some (N : Int)⟩) (N + 1) =
      ⟨freshId, sa, ⟨true, w, some (N : Int)⟩, N, true, none⟩ := by
    have h := exitsIter_exhausted N w sa freshId pid0 pids 0
    rwa [Nat.add_zero] at h
  refine ⟨?_, ?_, ?_, ?_⟩
  · show (exitsIter pids (forkedFresh freshId pid0 sa ⟨true, w, some (N : Int)⟩) (N + 1)).stopped = true
    rw [hterm]
  · show (exitsIter pids (forkedFresh freshId pid0 sa ⟨true, w, some (N : Int)⟩) (N + 1)).restarts = N
    rw [hterm]
  · show (childExit (pids N)
      (exitsIter pids (forkedFresh freshId pid0 sa ⟨true, w, some (N : Int)⟩) N)).snd = _
    rw [exitsIter_within_budget N w sa freshId pid0 pids N (Nat.le_refl N),
      childExit_step_exhaust (N : Int) w freshId sa N
        (some (if N = 0 then pid0 else pids (N - 1))) (pids N) (by omega)]
  · intro k
    show (exitsIter pids (forkedFresh freshId pid0 sa ⟨true, w, some (N : Int)⟩) k).restarts ≤ N
    by_cases hk : k ≤ N
    · rw [exitsIter_within_budget N w sa freshId pid0 pids k hk]
      exact hk
    · obtain ⟨j, rfl⟩ := Nat.exists_eq_add_of_le (Nat.succ_le_of_lt (Nat.lt_of_not_le hk))
      rw [exitsIter_exhausted N w sa freshId pid0 pids j]

/-- C1: every inbound request whose method name starts with an underscore,
or does not name an existing method on the server, is rejected by `_exec`
with the `Unknown command` error, and the named method is never invoked
(the outcome is never a dispatch). -/
theorem exec_rejects_unknown_or_private (freshId : String) (r : RawRequest)
    (req : ParsedRequest) (hp : parseRequest freshId r = Except.ok req)
    (hm : methodIsPrivate req.method = true ∨ serverHasMethod req.method = false) :
    execServer freshId r = ExecOutcome.failure "Unknown command" ∧
    ∀ q : ParsedRequest, execServer freshId r ≠ ExecOutcome.dispatch q := by
  have hguard : (methodIsPrivate req.method || !(serverHasMethod req.method)) = true := by
    rcases hm with h | h
    · simp [h]
    · simp [h]
  have hx : execServer freshId r = ExecOutcome.failure "Unknown command" := by
    unfold execServer
    rw [hp]
    simp [hguard]
  refine ⟨hx, fun q hq => ?_⟩
  rw [hx] at hq
  exact ExecOutcome.noConfusion hq

/-- Witness for C1: the spec's own scenario — invoking `_exit` through the
generic envelope is rejected as `Unknown command`. -/
theorem exec_rejects_unknown_or_private_witness :
    execServer "11111111-2222-4333-8444-555555555555" { method := some "_exit" } =
      ExecOutcome.failure "Unknown command" :=
  (exec_rejects_unknown_or_private "11111111-2222-4333-8444-555555555555"
    { method := some "_exit" }
    { id := "11111111-2222-4333-8444-555555555555", method := "_exit", payload := [] }
    rfl (Or.inl (by decide))).1

/-- C2 (code bug): dispatching a `fork` request through the `exec` handler
subscribes `progress-<processId>` at dispatch start, but the teardown is a
`once` listener on `request-end-<processId>` while the handler only emits
`request-end-<request.id>`.  With the envelope id `"b7e9"` distinct from
the process id `"loop"`, both subscriptions survive the request's
completion — the progress subscription leaks.  Only in the degenerate case
where the envelope id equals the process id does the teardown fire. -/
theorem fork_progress_subscription_leak :
    dispatchForkExec "b7e9" (some "loop") "fresh" [] =
      [ { event := "progress-loop", handler := Handler.progress "loop", once := false },
        { event := "request-end-loop", handler := Handler.teardown "loop", once := true } ] ∧
    dispatchForkExec "loop" (some "loop") "fresh" [] = [] := by
  exact ⟨rfl, rfl⟩

/-- C5: `RunningProcess.stop` is idempotent — the first call on a live
record requests `tree-kill` of the whole process tree and marks the record
terminal; a second call on the resulting state is a no-op; and on a record
whose OS process has already died (no live handle) the call issues no kill
at all and still resolves, marking the record terminal. -/
theorem running_process_stop_idempotent (s : RPState) (p : Nat)
    (hs : s.stopped = false) (hp : s.child = some p) :
    (rpStop s).snd = [RPAction.killTree p, RPAction.emitExit] ∧
    ((rpStop s).fst).stopped = true ∧
    rpStop ((rpStop s).fst) = ((rpStop s).fst, []) ∧
    (∀ t : RPState, t.stopped = false → t.child = none →
      (rpStop t).snd = [RPAction.emitExit] ∧ ((rpStop t).fst).stopped = true ∧
      ∀ q : Nat, RPAction.killTree q ∉ (rpStop t).snd) := by
  have hstep : rpStop s = ({ s with stopped := true, child := none },
      [RPAction.killTree p, RPAction.emitExit]) := by
    simp [rpStop, hs, hp]
  refine ⟨by rw [hstep], by rw [hstep], ?_, ?_⟩
  · rw [hstep]
    unfold rpStop
    rw [if_pos rfl]
  · intro t ht hc
    have htep : rpStop t = ({ t with stopped := true, child := none },
        [RPAction.emitExit]) := by
      simp [rpStop, ht, hc]
    refine ⟨by rw [htep], by rw [htep], ?_⟩
    intro q hq
    rw [htep] at hq
    simp at hq

/-- Witness for C5 at a concrete record: a live record with pid 5 gets a
tree-kill and becomes terminal; a dead, unstopped record resolves with no
kill request. -/
theorem running_process_stop_idempotent_witness :
    (rpStop { id := "a", spawnArgs := { command := "sleep", args := ["1"] },
              opts := {}, restarts := 0, stopped := false, child := some 5 }).snd =
      [RPAction.killTree 5, RPAction.emitExit] ∧
    (rpStop { id := "b", spawnArgs := { command := "sleep", args := ["1"] },
              opts := {}, restarts := 0, stopped := false, child := none }).snd =
      [RPAction.emitExit] := by
  refine ⟨(running_process_stop_idempotent _ 5 rfl rfl).1, ?_⟩
  exact ((running_process_stop_idempotent
    { id := "a", spawnArgs := { command := "sleep", args := ["1"] },
      opts := {}, restarts := 0, stopped := false, child := some 5 } 5 rfl rfl).2.2.2
    { id := "b", spawnArgs := { command := "sleep", args := ["1"] },
      opts := {}, restarts := 0, stopped := false, child := none } rfl rfl).1

/-- C7: `isRunning` returns a pid exactly when the marker file at the
merged configuration's `runningThread` path exists and its recorded pid is
a live OS process; a stale marker (file present, pid dead) yields `none`
rather than an error. -/
theorem daemon_is_running_spec (fileRead : String → Option Marker) (live : Nat → Bool)
    (pc : PartialConfig) :
    (∀ p : Nat, serverIsRunning fileRead live pc = some p ↔
      ∃ m : Marker, fileRead (mergeConfig pc).runningThread = some m ∧
        m.pid = p ∧ live p = true) ∧
    (∀ m : Marker, fileRead (mergeConfig pc).runningThread = some m →
      live m.pid = false → serverIsRunning fileRead live pc = none) := by
  constructor
  · intro p
    constructor
    · intro h
      unfold serverIsRunning at h
      cases hf : fileRead (mergeConfig pc).runningThread with
      | none =>
        rw [hf] at h
        exact Option.noConfusion h
      | some m =>
        simp only [hf] at h
        by_cases hl : live m.pid = true
        · rw [if_pos hl] at h
          obtain rfl := Option.some.inj h
          exact ⟨m, rfl, rfl, hl⟩
        · rw [if_neg hl] at h
          exact Option.noConfusion h
    · rintro ⟨m, hm, rfl, hlp⟩
      unfold serverIsRunning
      simp only [hm]
      rw [if_pos hlp]
  · intro m hm hl
    unfold serverIsRunning
    simp only [hm]
    rw [if_neg (by rw [hl]; exact Bool.false_ne_true)]

/-- Witness for C7: a marker recording pid 7 with pid 7 alive reports 7;
the same marker with pid 7 dead reports nothing. -/
theorem daemon_is_running_spec_witness :
    serverIsRunning (fun _ => some { pid := 7 }) (fun q => q == 7) {} = some 7 ∧
    serverIsRunning (fun _ => some { pid := 7 }) (fun _ => false) {} = none := by
  constructor
  · exact ((daemon_is_running_spec (fun _ => some { pid := 7 }) (fun q => q == 7) {}).1 7).mpr
      ⟨{ pid := 7 }, rfl, rfl, by decide⟩
  · exact (daemon_is_running_spec (fun _ => some { pid := 7 }) (fun _ => false) {}).2
      { pid := 7 } rfl rfl

/-- C6: `DaemonizerServer.start` fails fast with the AlreadyRunning error
carrying the discovered pid whenever `isRunning` reports a live daemon;
otherwise it issues exactly one detached spawn whose environment carries
the start flag and the merged configuration, and returns the new child's
pid immediately. -/
theorem daemon_start_spec (fileRead : String → Option Marker) (live : Nat → Bool)
    (pc : PartialConfig) (userEnv : List (String × String)) (childPid : Nat) :
    (∀ p : Nat, serverIsRunning fileRead live pc = some p →
      serverStart fileRead live pc userEnv childPid =
        Except.error ("Another process is already running (pid = " ++ toString p ++ ")")) ∧
    (serverIsRunning fileRead live pc = none →
      serverStart fileRead live pc userEnv childPid =
        Except.ok (childPid,
          { detached := true, stdioIgnore := true, envStartFlag := true,
            envConfig := mergeConfig pc, userEnv := userEnv })) := by
  constructor
  · intro p hp
    unfold serverStart
    rw [hp]
  · intro hn
    unfold serverStart
    rw [hn]

/-- Witness for C6: with a live daemon at pid 7 the start is refused with
the pid in the error; with no marker file a new detached daemon spawn is
issued and pid 99 is returned. -/
theorem daemon_start_spec_witness :
    serverStart (fun _ => some { pid := 7 }) (fun _ => true) {} [] 99 =
      Except.error "Another process is already running (pid = 7)" ∧
    serverStart (fun _ => none) (fun _ => true) {} [] 99 =
      Except.ok (99,
        { detached := true, stdioIgnore := true, envStartFlag := true,
          envConfig := mergeConfig {}, userEnv := [] }) := by
  constructor
  · exact (daemon_start_spec (fun _ => some { pid := 7 }) (fun _ => true) {} [] 99).1 7 rfl
  · exact (daemon_start_spec (fun _ => none) (fun _ => true) {} [] 99).2 rfl

/-- C8: the supervisor's `stop(id)` fails with the NotFound error naming
the requested id when the id is absent from the registry, and otherwise
delegates to the found record's own `stop()`. -/
theorem supervisor_stop_spec (id : String) (reg : List RPState) :
    (findProcessById (some id) reg = none →
      serverStop id reg = Except.error ("Process " ++ id ++ " not found.")) ∧
    (∀ p : RPState, findProcessById (some id) reg = some p →
      serverStop id reg = Except.ok (rpStop p)) := by
  constructor
  · intro h
    unfold serverStop
    rw [h]
  · intro p h
    unfold serverStop
    rw [h]

/-- Witness for C8: the spec's scenario — `stop("ghost")` on an empty
registry reports `Process ghost not found.`; with a record `loop` present
the call delegates to that record's `stop()`. -/
theorem supervisor_stop_spec_witness :
    serverStop "ghost" [] = Except.error "Process ghost not found." ∧
    serverStop "loop"
      [ { id := "loop", spawnArgs := { command := "loop.sh", args := [] },
          opts := {}, restarts := 0, stopped := false, child := some 5 } ] =
      Except.ok (rpStop
        { id := "loop", spawnArgs := { command := "loop.sh", args := [] },
          opts := {}, restarts := 0, stopped := false, child := some 5 }) := by
  constructor
  · exact (supervisor_stop_spec "ghost" []).1 rfl
  · exact (supervisor_stop_spec "loop" _).2 _ rfl

/-- C9: every row of `status` that belongs to a record with no live handle
(`pid` absent) reports zeroed metrics (`cpu = 0`, `elapsed = 0`, and also
`memory = 0`); moreover every registered record with no live handle does
contribute such a row when no id filter is given. -/
theorem status_zeroed_metrics (sample : Nat → Metrics) (idFilter : Option String)
    (reg : List RPState) (row : StatusRow) (hrow : row ∈ serverStatus sample idFilter reg)
    (hdead : row.pid = none) :
    (row.cpu = 0 ∧ row.elapsed = 0 ∧ row.memory = 0) ∧
    (∀ rp : RPState, rp ∈ reg → rp.child = none →
      ∃ r ∈ serverStatus sample none reg,
        r.id = rp.id ∧ r.pid = none ∧ r.cpu = 0 ∧ r.elapsed = 0) := by
  constructor
  · obtain ⟨rp, hmem, hf⟩ := List.mem_filterMap.mp hrow
    by_cases hskip : (idTruthy idFilter && rp.id != idFilter.getD "") = true
    · simp only [hskip, if_true] at hf
      exact Option.noConfusion hf
    · simp only [if_neg hskip] at hf
      obtain rfl := Option.some.inj hf
      cases hc : rp.child with
      | some pid =>
        rw [hc] at hdead
        simp at hdead
      | none =>
        simp only [hc]
        norm_num
  · intro rp hmem hc
    have hrowmem : (⟨rp.id, rp.child, rp.restarts, rp.stopped, 0, 0, 0 / 1000⟩ : StatusRow) ∈ serverStatus sample none reg :=
      List.mem_filterMap.mpr ⟨rp, hmem, by simp [idTruthy, hc]⟩
    refine ⟨_, hrowmem, rfl, hc, rfl, by norm_num⟩

/-- Witness for C9: on a one-record registry whose record has no live
handle, the returned table carries that record's row with zero cpu and
zero elapsed, even under a sampler reporting nonzero metrics for every
pid. -/
theorem status_zeroed_metrics_witness :
    ∃ r ∈ serverStatus (fun _ => { cpu := 9, memory := 9, elapsed := 9000 }) none
        [ { id := "dead", spawnArgs := { command := "x", args := [] },
            opts := {}, restarts := 2, stopped := true, child := none } ],
      r.id = "dead" ∧ r.pid = none ∧ r.cpu = 0 ∧ r.elapsed = 0 := by
  have h := status_zeroed_metrics (fun _ => { cpu := 9, memory := 9, elapsed := 9000 }) none
    [ { id := "dead", spawnArgs := { command := "x", args := [] },
        opts := {}, restarts := 2, stopped := true, child := none } ]
    { id := "dead", pid := none, restarts := 2, stopRequested := true,
      cpu := 0, memory := 0, elapsed := 0 }
    (by simp [serverStatus, idTruthy]) rfl
  exact h.2
    { id := "dead", spawnArgs := { command := "x", args := [] },
      opts := {}, restarts := 2, stopped := true, child := none }
    (by simp) rfl

end Forker
